import Mathlib

/-!
Shallow embedding of the caarlstore order-validation and audit-logging
pipeline (the client-side order validation module, the server-side order
validation module, and the order audit logger from src/lib).

Modelling choices:
* JavaScript numbers are modelled as exact rationals.
* Remote database lookups (product table, auth user, address ownership,
  the discount remote procedure) are modelled as a pure environment
  record `DBEnv`; a `none`-valued lookup models both a database error and
  a missing row, exactly as the source treats `error || !data`.  The
  environment is total, i.e. every remote call completes, so the
  catch-all infrastructure branch of the server validator is not taken.
* JavaScript exceptions (`'*'.repeat` with a negative count throws a
  RangeError) are modelled with `Except String`.
* `try { ... } catch { console.error(...) }` blocks, which swallow every
  failure, are modelled by `tryCatchUnit`.
-/

/-- JS `'*'.repeat n` for a possibly negative JS count: a negative count
throws a RangeError, which the model returns as `Except.error`. -/
def starRepeatJs (n : Int) : Except String String :=
  if n < 0 then Except.error "RangeError: Invalid count value"
  else Except.ok (String.mk (List.replicate n.toNat '*'))

/-- `'*'.repeat n` for a count known to be non-negative. -/
def starRepeat (n : Nat) : String := String.mk (List.replicate n '*')

/-- Two-digit rendering of the cents part of a fixed-point number. -/
def pad2 (m : Nat) : String := if m < 10 then "0" ++ toString m else toString m

/-- `toFixed(2)` on a non-negative rational: round to the nearest
hundredth, ties towards the larger integer, as the ECMAScript `toFixed`
specification prescribes. -/
def toFixed2NN (y : ℚ) : String :=
  let n : Nat := (⌊y * 100 + 1 / 2⌋).toNat
  toString (n / 100) ++ "." ++ pad2 (n % 100)

/-- JS `Number.prototype.toFixed(2)` on the exact rational model: the
sign is split off first, as in the ECMAScript specification. -/
def toFixed2 (x : ℚ) : String :=
  if x < 0 then "-" ++ toFixed2NN (-x) else toFixed2NN x

/-- JS number-to-string coercion used by template literals.  Integral
values render exactly as in JS; non-integral rationals are rendered as
`num/den` (the claims under study never depend on that case). -/
def jsNumToString (q : ℚ) : String :=
  if q.den = 1 then toString q.num else toString q.num ++ "/" ++ toString q.den

/-- JS `Math.abs` on the rational model. -/
def jsAbs (q : ℚ) : ℚ := if q < 0 then -q else q

theorem jsAbs_eq_abs (q : ℚ) : jsAbs q = |q| := by
  unfold jsAbs
  rcases lt_or_le q 0 with h | h
  · rw [if_pos h, abs_of_neg h]
  · rw [if_neg (not_lt.mpr h), abs_of_nonneg h]

/-- JS falsiness of `s?.trim()` on a string field: true exactly when the
trimmed string is empty. -/
def isBlank (s : String) : Bool := s.trim == ""

/-- JS `a || b` for an optional string `a`: `b` is used when `a` is
absent or empty (the empty string is falsy). -/
def jsStringOr (o : Option String) (dflt : String) : String :=
  match o with
  | some s => if s == "" then dflt else s
  | none => dflt

/-- JS `String.prototype.split` with a single-character separator, on
the character-list view of the string. -/
def splitOnChar (c : Char) : List Char → List (List Char)
  | [] => [[]]
  | x :: xs =>
    let rest := splitOnChar c xs
    if x = c then [] :: rest
    else
      match rest with
      | r :: rs => (x :: r) :: rs
      | [] => [[x]]

/-- The client email regular expression `/^[^\s@]+@[^\s@]+\.[^\s@]+$/`:
exactly one `@`, a non-empty whitespace-free local part, and a
whitespace-free domain containing an interior dot. -/
def clientEmailPattern (s : String) : Bool :=
  match splitOnChar '@' s.data with
  | [a, b] =>
    decide (0 < a.length) && a.all (fun c => !c.isWhitespace) &&
      b.all (fun c => !c.isWhitespace) &&
      ((b.drop 1).dropLast.contains '.')
  | _ => false

/-- Whether the character at index `i` exists and is not whitespace. -/
def charAtNonWs (cs : List Char) (i : Nat) : Bool :=
  match cs.get? i with
  | some c => !c.isWhitespace
  | none => false

/-- The server email test `/\S+@\S+\.\S+/.test`: an unanchored search
for a non-whitespace run, an `@`, a non-whitespace run, a dot, and a
non-whitespace character. -/
def serverEmailPattern (s : String) : Bool :=
  let cs := s.data
  (List.range cs.length).any fun p =>
    (cs.get? p == some '@') && decide (1 ≤ p) && charAtNonWs cs (p - 1) &&
      ((List.range cs.length).any fun q =>
        decide (p + 2 ≤ q) && (cs.get? q == some '.') &&
          (((cs.drop (p + 1)).take (q - (p + 1))).all fun c => !c.isWhitespace) &&
          charAtNonWs cs (q + 1))

/-- `try { body } catch (e) { console.error(...) }` where the body has no
useful return value: every failure is swallowed. -/
def tryCatchUnit (x : Except String Unit) : Except String Unit :=
  match x with
  | Except.ok _ => Except.ok ()
  | Except.error _ => Except.ok ()

theorem tryCatchUnit_ok (x : Except String Unit) : tryCatchUnit x = Except.ok () := by
  cases x <;> rfl

/-! ## The shared validation data model (`OrderValidationError`,
`OrderValidationResult`, `GuestOrderData`, `AuthenticatedOrderData`),
declared identically in the client and server validation modules. -/

inductive ErrSeverity
  | error
  | warning
deriving DecidableEq, Repr

structure OrderValidationError where
  field : String
  message : String
  code : String
  severity : ErrSeverity
deriving DecidableEq, Repr

structure OrderValidationResult where
  isValid : Bool
  errors : List OrderValidationError
  warnings : List OrderValidationError
deriving DecidableEq, Repr

structure CartItem where
  product_id : String
  quantity : ℚ
  price : ℚ
deriving DecidableEq, Repr

structure GuestCustomerInfo where
  full_name : String
  email : String
  phone : String
deriving DecidableEq, Repr

structure GuestAddressInfo where
  street_address : String
  city : String
  province : String
  postal_code : String
  phone : String
deriving DecidableEq, Repr

structure GuestOrderData where
  customerInfo : GuestCustomerInfo
  address : GuestAddressInfo
  cartItems : List CartItem
  deliveryMethod : String
  deliveryFee : ℚ
  subtotal : ℚ
  discountCode : Option String
  discountAmount : Option ℚ
  total : ℚ
deriving DecidableEq, Repr

structure AuthenticatedOrderData where
  userId : String
  addressId : String
  cartItems : List CartItem
  deliveryMethod : String
  deliveryFee : ℚ
  subtotal : ℚ
  discountCode : Option String
  discountAmount : Option ℚ
  total : ℚ
deriving DecidableEq, Repr

/-- The TypeScript union `GuestOrderData | AuthenticatedOrderData`,
discriminated in the source by `'customerInfo' in orderData` and
`'userId' in orderData`. -/
inductive OrderData
  | guest (g : GuestOrderData)
  | auth (a : AuthenticatedOrderData)
deriving DecidableEq, Repr

def OrderData.cartItems : OrderData → List CartItem
  | .guest g => g.cartItems
  | .auth a => a.cartItems

def OrderData.deliveryMethod : OrderData → String
  | .guest g => g.deliveryMethod
  | .auth a => a.deliveryMethod

def OrderData.deliveryFee : OrderData → ℚ
  | .guest g => g.deliveryFee
  | .auth a => a.deliveryFee

def OrderData.subtotal : OrderData → ℚ
  | .guest g => g.subtotal
  | .auth a => a.subtotal

def OrderData.discountCode : OrderData → Option String
  | .guest g => g.discountCode
  | .auth a => a.discountCode

def OrderData.discountAmount : OrderData → Option ℚ
  | .guest g => g.discountAmount
  | .auth a => a.discountAmount

def OrderData.total : OrderData → ℚ
  | .guest g => g.total
  | .auth a => a.total

/-- `'userId' in orderData ? orderData.userId : undefined`. -/
def OrderData.userIdOpt : OrderData → Option String
  | .guest _ => none
  | .auth a => some a.userId

/-- Shorthand for an error-severity validation error record. -/
def mkErr (field message code : String) : OrderValidationError :=
  { field := field, message := message, code := code, severity := ErrSeverity.error }

/-- Shorthand for a warning-severity validation error record. -/
def mkWarn (field message code : String) : OrderValidationError :=
  { field := field, message := message, code := code, severity := ErrSeverity.warning }

/-! ## Client-side order validation module (`validateBusinessRules`,
`validateOrderClient`): synchronous checks with no database access. -/

namespace ClientValidation

/-- The `orderData.cartItems.forEach((item, index) => ...)` loop: an
error `INVALID_QUANTITY` for a non-positive quantity and a warning
`LARGE_QUANTITY` for a quantity above 10, fields indexed by the running
position `i`. -/
def itemQuantityChecks (i : Nat) :
    List CartItem → List OrderValidationError × List OrderValidationError
  | [] => ([], [])
  | it :: rest =>
    let tail := itemQuantityChecks (i + 1) rest
    ((if it.quantity ≤ 0 then
        [mkErr ("cartItems[" ++ toString i ++ "].quantity")
          "Quantity must be greater than 0" "INVALID_QUANTITY"]
      else []) ++ tail.1,
     (if 10 < it.quantity then
        [mkWarn ("cartItems[" ++ toString i ++ "].quantity")
          "Large quantity order - please verify" "LARGE_QUANTITY"]
      else []) ++ tail.2)

/-- Guest-shape checks of the client validator: required contact and
address fields plus the email format test. -/
def guestChecks (g : GuestOrderData) : List OrderValidationError :=
  (if isBlank g.customerInfo.full_name then
    [mkErr "customerInfo.full_name" "Full name is required" "MISSING_NAME"] else []) ++
  (if isBlank g.customerInfo.email then
    [mkErr "customerInfo.email" "Email is required" "MISSING_EMAIL"]
   else if !clientEmailPattern g.customerInfo.email then
    [mkErr "customerInfo.email" "Invalid email format" "INVALID_EMAIL"] else []) ++
  (if isBlank g.customerInfo.phone then
    [mkErr "customerInfo.phone" "Phone number is required" "MISSING_PHONE"] else []) ++
  (if isBlank g.address.street_address then
    [mkErr "address.street_address" "Street address is required" "MISSING_ADDRESS"] else []) ++
  (if isBlank g.address.city then
    [mkErr "address.city" "City is required" "MISSING_CITY"] else []) ++
  (if isBlank g.address.province then
    [mkErr "address.province" "Province is required" "MISSING_PROVINCE"] else []) ++
  (if isBlank g.address.postal_code then
    [mkErr "address.postal_code" "Postal code is required" "MISSING_POSTAL_CODE"] else [])

/-- Authenticated-shape checks of the client validator. -/
def authChecks (a : AuthenticatedOrderData) : List OrderValidationError :=
  (if isBlank a.userId then
    [mkErr "userId" "User ID is required" "MISSING_USER_ID"] else []) ++
  (if isBlank a.addressId then
    [mkErr "addressId" "Address ID is required" "MISSING_ADDRESS_ID"] else [])

/-- The client-side `validateBusinessRules`. -/
def validateBusinessRules (orderData : OrderData) : OrderValidationResult :=
  let cartErrs :=
    if orderData.cartItems.isEmpty then
      [mkErr "cartItems" "Cart cannot be empty" "EMPTY_CART"] else []
  let itemChecks := itemQuantityChecks 0 orderData.cartItems
  let totalErrs :=
    if orderData.total ≤ 0 then
      [mkErr "total" "Order total must be greater than 0" "INVALID_TOTAL"] else []
  let deliveryErrs :=
    if orderData.deliveryMethod == "" then
      [mkErr "deliveryMethod" "Delivery method is required" "MISSING_DELIVERY_METHOD"] else []
  let shapeErrs :=
    match orderData with
    | .guest g => guestChecks g
    | .auth a => authChecks a
  let errors := cartErrs ++ itemChecks.1 ++ totalErrs ++ deliveryErrs ++ shapeErrs
  { isValid := errors.isEmpty, errors := errors, warnings := itemChecks.2 }

/-- `validateOrderClient` simply delegates to `validateBusinessRules`. -/
def validateOrderClient (orderData : OrderData) : OrderValidationResult :=
  validateBusinessRules orderData

/-- `formatValidationErrors`: messages joined by a comma and a space. -/
def formatValidationErrors (errors : List OrderValidationError) : String :=
  if errors.isEmpty then "" else String.intercalate ", " (errors.map (·.message))

end ClientValidation

/-! ## Server-side order validation module (`validateDatabaseConstraints`,
`validateBusinessRules`, `validateOrder`). -/

namespace ServerValidation

/-- The row shape selected from the `products` table. -/
structure Product where
  id : String
  name : String
  price : ℚ
  is_available : Bool
  stock_quantity : Option ℚ
deriving DecidableEq, Repr

/-- The response shape of the `validate_discount_code` remote
procedure. -/
structure DiscountRpcData where
  valid : Bool
  error : Option String
  discount_amount : Option ℚ
deriving DecidableEq, Repr

/-- Pure model of the remote collaborators used by the server
validator.  `none` models a query that errored or matched no row. -/
structure DBEnv where
  product : String → Option Product
  authUser : Option String
  addressOwned : String → String → Bool
  discountRpc : String → Option String → ℚ → Option DiscountRpcData

/-- Result shape of the local `validateDiscountCode` helper. -/
structure DiscountValidation where
  isValid : Bool
  error : Option String
  discountAmount : Option ℚ
deriving DecidableEq, Repr

/-- `validateDiscountCode`: call the remote procedure; a failed call is
converted into an invalid result with a fixed message. -/
def validateDiscountCode (env : DBEnv) (code : String) (userId : Option String)
    (orderTotal : ℚ) : DiscountValidation :=
  match env.discountRpc code userId orderTotal with
  | none => { isValid := false, error := some "Failed to validate discount code", discountAmount := none }
  | some d => { isValid := d.valid, error := d.error, discountAmount := d.discount_amount }

/-- The per-item body of the `for (const item of orderData.cartItems)`
loop: product lookup, availability, stock, price drift (a warning), and
the positivity safety net. -/
def itemChecks (env : DBEnv) (it : CartItem) :
    List OrderValidationError × List OrderValidationError :=
  match env.product it.product_id with
  | none =>
    ([mkErr "cartItems" ("Product with ID " ++ it.product_id ++ " not found")
        "PRODUCT_NOT_FOUND"], [])
  | some p =>
    ((if p.is_available then []
      else [mkErr "cartItems" ("Product \"" ++ p.name ++ "\" is not available")
        "PRODUCT_UNAVAILABLE"]) ++
     (match p.stock_quantity with
      | some sq =>
        if sq < it.quantity then
          [mkErr "cartItems"
            ("Insufficient stock for \"" ++ p.name ++ "\". Available: " ++
              jsNumToString sq ++ ", Requested: " ++ jsNumToString it.quantity)
            "INSUFFICIENT_STOCK"]
        else []
      | none => []) ++
     (if it.quantity ≤ 0 then
        [mkErr "cartItems"
          ("Invalid quantity for \"" ++ p.name ++ "\". Must be greater than 0")
          "INVALID_QUANTITY"]
      else []),
     (if 1 / 100 < jsAbs (p.price - it.price) then
        [mkWarn "cartItems"
          ("Price for \"" ++ p.name ++ "\" has changed. Current: R" ++
            jsNumToString p.price ++ ", Cart: R" ++ jsNumToString it.price)
          "PRICE_CHANGED"]
      else []))

/-- Sequential accumulation of the per-item checks. -/
def cartLoop (env : DBEnv) :
    List CartItem → List OrderValidationError × List OrderValidationError
  | [] => ([], [])
  | it :: rest =>
    let head := itemChecks env it
    let tail := cartLoop env rest
    (head.1 ++ tail.1, head.2 ++ tail.2)

/-- The cart section of `validateDatabaseConstraints`: an empty cart is
an `EMPTY_CART` error, otherwise every item is checked. -/
def cartSection (env : DBEnv) (items : List CartItem) :
    List OrderValidationError × List OrderValidationError :=
  if items.isEmpty then
    ([mkErr "cartItems" "Order must contain at least one item" "EMPTY_CART"], [])
  else cartLoop env items

/-- Guest-shape constraint checks of the server validator. -/
def guestConstraintChecks (g : GuestOrderData) : List OrderValidationError :=
  (if isBlank g.customerInfo.full_name then
    [mkErr "customerInfo.full_name" "Full name is required for guest orders"
      "GUEST_NAME_REQUIRED"] else []) ++
  (if isBlank g.customerInfo.email then
    [mkErr "customerInfo.email" "Email is required for guest orders"
      "GUEST_EMAIL_REQUIRED"]
   else if !serverEmailPattern g.customerInfo.email then
    [mkErr "customerInfo.email" "Please enter a valid email address"
      "INVALID_EMAIL_FORMAT"] else []) ++
  (if isBlank g.address.street_address then
    [mkErr "address.street_address" "Street address is required" "ADDRESS_REQUIRED"] else []) ++
  (if isBlank g.address.city then
    [mkErr "address.city" "City is required" "CITY_REQUIRED"] else []) ++
  (if isBlank g.address.province then
    [mkErr "address.province" "Province is required" "PROVINCE_REQUIRED"] else []) ++
  (if isBlank g.address.postal_code then
    [mkErr "address.postal_code" "Postal code is required" "POSTAL_CODE_REQUIRED"] else [])

/-- Authenticated-shape constraint checks of the server validator: the
calling identity must match and the address must belong to the user. -/
def authConstraintChecks (env : DBEnv) (a : AuthenticatedOrderData) :
    List OrderValidationError :=
  (match env.authUser with
   | none => [mkErr "userId" "Invalid user authentication" "INVALID_USER"]
   | some uid =>
     if uid ≠ a.userId then
       [mkErr "userId" "Invalid user authentication" "INVALID_USER"]
     else []) ++
  (if env.addressOwned a.addressId a.userId then []
   else [mkErr "addressId" "Invalid delivery address" "INVALID_ADDRESS"])

/-- The discount section: a truthy (present, non-empty) discount code is
validated remotely, a failure becoming `INVALID_DISCOUNT`. -/
def discountChecks (env : DBEnv) (orderData : OrderData) : List OrderValidationError :=
  match orderData.discountCode with
  | some c =>
    if c == "" then []
    else
      let v := validateDiscountCode env c orderData.userIdOpt orderData.subtotal
      if v.isValid then []
      else [mkErr "discountCode" (jsStringOr v.error "Invalid discount code") "INVALID_DISCOUNT"]
  | none => []

/-- The `TOTAL_CALCULATION_ERROR` record with both values surfaced via
`toFixed(2)`. -/
def totalCalculationError (expected received : ℚ) : OrderValidationError :=
  mkErr "total"
    ("Order total calculation error. Expected: R" ++ toFixed2 expected ++
      ", Received: R" ++ toFixed2 received)
    "TOTAL_CALCULATION_ERROR"

/-- The monetary checks at the end of `validateDatabaseConstraints`. -/
def moneyChecks (orderData : OrderData) : List OrderValidationError :=
  (if orderData.total ≤ 0 then
    [mkErr "total" "Order total must be greater than 0" "INVALID_TOTAL"] else []) ++
  (if orderData.deliveryFee < 0 then
    [mkErr "deliveryFee" "Delivery fee cannot be negative" "INVALID_DELIVERY_FEE"] else []) ++
  (let expectedTotal := orderData.subtotal + orderData.deliveryFee -
      (orderData.discountAmount.getD 0)
   if 1 / 100 < jsAbs (orderData.total - expectedTotal) then
     [totalCalculationError expectedTotal orderData.total]
   else [])

def validDeliveryMethods : List String := ["standard", "express", "collection"]

/-- The server-side `validateDatabaseConstraints`, with the remote
collaborators supplied by `env`. -/
def validateDatabaseConstraints (env : DBEnv) (orderData : OrderData) :
    OrderValidationResult :=
  let deliveryErrs :=
    if validDeliveryMethods.contains orderData.deliveryMethod then []
    else [mkErr "deliveryMethod"
      "Invalid delivery method. Must be one of: standard, express, collection"
      "INVALID_DELIVERY_METHOD"]
  let cart := cartSection env orderData.cartItems
  let shapeErrs :=
    match orderData with
    | .guest g => guestConstraintChecks g
    | .auth a => authConstraintChecks env a
  let errors := deliveryErrs ++ cart.1 ++ shapeErrs ++
    discountChecks env orderData ++ moneyChecks orderData
  { isValid := errors.isEmpty, errors := errors, warnings := cart.2 }

/-- `for (const item of orderData.cartItems)` in the server business
rules: a quantity above the per-item cap of 10 is an error. -/
def quantityCapChecks : List CartItem → List OrderValidationError
  | [] => []
  | it :: rest =>
    (if 10 < it.quantity then
      [mkErr "cartItems" "Maximum quantity per item is 10" "EXCESSIVE_QUANTITY"]
     else []) ++ quantityCapChecks rest

/-- The server-side `validateBusinessRules`: minimum-order warning,
maximum-order error, and the per-item quantity cap. -/
def validateBusinessRules (orderData : OrderData) : OrderValidationResult :=
  let warnings :=
    if orderData.subtotal < 50 then
      [mkWarn "subtotal" "Orders under R50 may have extended processing times"
        "LOW_ORDER_VALUE"]
    else []
  let errors :=
    (if 10000 < orderData.total then
      [mkErr "total" "Order total exceeds maximum allowed amount of R10000"
        "EXCESSIVE_ORDER_VALUE"]
     else []) ++ quantityCapChecks orderData.cartItems
  { isValid := errors.isEmpty, errors := errors, warnings := warnings }

/-- The composite `validateOrder`: both validators run and their results
are merged, validity being the conjunction and the lists concatenated. -/
def validateOrder (env : DBEnv) (orderData : OrderData) : OrderValidationResult :=
  let dbValidation := validateDatabaseConstraints env orderData
  let businessValidation := validateBusinessRules orderData
  { isValid := dbValidation.isValid && businessValidation.isValid,
    errors := dbValidation.errors ++ businessValidation.errors,
    warnings := dbValidation.warnings ++ businessValidation.warnings }

end ServerValidation

/-! ## Order audit logger module (`OrderAuditLogger`). -/

namespace AuditLogger

inductive AuditSeverity
  | low
  | medium
  | high
  | critical
deriving DecidableEq, Repr

inductive AuditEventType
  | validation_failure
  | validation_warning
  | order_blocked
  | suspicious_activity
deriving DecidableEq, Repr

def criticalCodes : List String :=
  ["PRODUCT_NOT_FOUND", "CALCULATION_MISMATCH", "CART_EMPTY", "INVALID_USER_ID"]

def highCodes : List String :=
  ["PRODUCT_OUT_OF_STOCK", "INVALID_DISCOUNT_CODE", "DISCOUNT_USAGE_EXCEEDED",
   "MAXIMUM_ORDER_EXCEEDED"]

def mediumCodes : List String :=
  ["PRODUCT_PRICE_CHANGED", "DISCOUNT_EXPIRED", "MINIMUM_ORDER_NOT_MET",
   "INVALID_QUANTITY"]

/-- `determineSeverity`: first matching tier wins, critical checked
first, and anything unmatched defaults to low. -/
def determineSeverity (errors : List OrderValidationError) : AuditSeverity :=
  if errors.any fun e => criticalCodes.contains e.code then .critical
  else if errors.any fun e => highCodes.contains e.code then .high
  else if errors.any fun e => mediumCodes.contains e.code then .medium
  else .low

/-- `determineEventType`: a failure if any entry has severity `error`,
else a warning if any has severity `warning`, else a failure. -/
def determineEventType (errors : List OrderValidationError) : AuditEventType :=
  if errors.any fun e => e.severity == ErrSeverity.error then .validation_failure
  else if errors.any fun e => e.severity == ErrSeverity.warning then .validation_warning
  else .validation_failure

/-- `maskEmail`: keep the first two characters of the local part when it
is longer than two characters, star the rest, and reattach the domain
(the JS destructuring renders a missing domain as `undefined`). -/
def maskEmail (email : String) : String :=
  let parts := (splitOnChar '@' email.data).map String.mk
  let username := parts.headD ""
  let domain := parts.get? 1
  let maskedUsername :=
    if 2 < username.length then username.take 2 ++ starRepeat (username.length - 2)
    else username
  maskedUsername ++ "@" ++ (match domain with | some d => d | none => "undefined")

/-- `maskPhone`: phones longer than four characters keep their first and
last three characters around `'*'.repeat(length - 6)`; the JS repeat
count is computed in ordinary arithmetic, so it can be negative and
throw. -/
def maskPhone (phone : String) : Except String String :=
  if 4 < phone.length then do
    let stars ← starRepeatJs ((phone.length : Int) - 6)
    pure (phone.take 3 ++ stars ++ phone.drop (phone.length - 3))
  else pure phone

/-- `sanitizeOrderData`: a guest draft has its customer email and phone
and its address phone masked; an authenticated draft is returned
untouched. -/
def sanitizeOrderData : OrderData → Except String OrderData
  | .guest g => do
    let maskedEmail := maskEmail g.customerInfo.email
    let maskedCustomerPhone ← maskPhone g.customerInfo.phone
    let maskedAddressPhone ← maskPhone g.address.phone
    pure (.guest { g with
      customerInfo := { g.customerInfo with
        email := maskedEmail, phone := maskedCustomerPhone },
      address := { g.address with phone := maskedAddressPhone } })
  | .auth a => pure (.auth a)

structure AuditLogEntry where
  timestamp : String
  event_type : AuditEventType
  user_id : Option String
  session_id : String
  order_data : OrderData
  validation_errors : List OrderValidationError
  severity : AuditSeverity
  ip_address : String
  user_agent : String
  additional_context : Option String
deriving DecidableEq, Repr

/-- Ambient request data and the two fallible side channels of the
logger: the audit-table insert and the critical-alert notification. -/
structure AuditEnv where
  timestamp : String
  sessionId : String
  userAgent : String
  store : AuditLogEntry → Except String Unit
  alert : AuditLogEntry → Except String Unit

/-- `getClientIP` always resolves to the fixed placeholder. -/
def getClientIP : String := "client_ip_masked"

/-- The `AuditLogEntry` built inside `logValidationViolation`;
sanitization can throw, which the surrounding try-catch later
swallows. -/
def mkViolationEntry (env : AuditEnv) (orderData : OrderData)
    (errors : List OrderValidationError) (ctx : Option String) :
    Except String AuditLogEntry := do
  let sanitized ← sanitizeOrderData orderData
  pure
    { timestamp := env.timestamp
      event_type := determineEventType errors
      user_id := orderData.userIdOpt
      session_id := env.sessionId
      order_data := sanitized
      validation_errors := errors
      severity := determineSeverity errors
      ip_address := getClientIP
      user_agent := env.userAgent
      additional_context := ctx }

/-- `storeAuditLog`: the insert may fail, and both the reported error
and any thrown exception are logged to the console and swallowed. -/
def storeAuditLog (env : AuditEnv) (entry : AuditLogEntry) : Except String Unit :=
  tryCatchUnit (env.store entry)

/-- `sendCriticalAlert`: the best-effort side-channel notification; a
failure is logged and swallowed. -/
def sendCriticalAlert (env : AuditEnv) (entry : AuditLogEntry) : Except String Unit :=
  tryCatchUnit (env.alert entry)

/-- `logValidationViolation`: build the sanitized entry, store it, alert
on critical severity, and swallow any failure of the whole body. -/
def logValidationViolation (env : AuditEnv) (orderData : OrderData)
    (errors : List OrderValidationError) (ctx : Option String) : Except String Unit :=
  tryCatchUnit (do
    let entry ← mkViolationEntry env orderData errors ctx
    storeAuditLog env entry
    if determineSeverity errors = .critical then sendCriticalAlert env entry
    else pure ())

/-- `logValidationSuccess`: persists a low-severity warning entry only
when warnings are present; any failure is swallowed. -/
def logValidationSuccess (env : AuditEnv) (orderData : OrderData)
    (warnings : List OrderValidationError) : Except String Unit :=
  tryCatchUnit (do
    if warnings.isEmpty then pure ()
    else
      let sanitized ← sanitizeOrderData orderData
      storeAuditLog env
        { timestamp := env.timestamp
          event_type := .validation_warning
          user_id := orderData.userIdOpt
          session_id := env.sessionId
          order_data := sanitized
          validation_errors := warnings
          severity := .low
          ip_address := getClientIP
          user_agent := env.userAgent
          additional_context := none })

/-- `logSuspiciousActivity`: always persists a high-severity entry with
a single synthetic `SUSPICIOUS_ACTIVITY` error and always invokes the
critical-alert path; any failure is swallowed. -/
def logSuspiciousActivity (env : AuditEnv) (description : String)
    (orderData : OrderData) (ctx : Option String) : Except String Unit :=
  tryCatchUnit (do
    let sanitized ← sanitizeOrderData orderData
    let entry : AuditLogEntry :=
      { timestamp := env.timestamp
        event_type := .suspicious_activity
        user_id := orderData.userIdOpt
        session_id := env.sessionId
        order_data := sanitized
        validation_errors :=
          [{ field := "system", message := description,
             code := "SUSPICIOUS_ACTIVITY", severity := ErrSeverity.error }]
        severity := .high
        ip_address := getClientIP
        user_agent := env.userAgent
        additional_context := ctx }
    storeAuditLog env entry
    sendCriticalAlert env entry)

end AuditLogger

/-! ## Helper lemmas shared by the claim theorems. -/

theorem isEmpty_false_of_mem {α : Type} {a : α} {l : List α} (h : a ∈ l) :
    l.isEmpty = false := by
  cases l with
  | nil => cases h
  | cons x xs => rfl

/-- A client result is invalid exactly when its error list is
non-empty; the `isValid` field is definitionally `errors.isEmpty`. -/
theorem client_isValid_def (d : OrderData) :
    (ClientValidation.validateBusinessRules d).isValid =
      (ClientValidation.validateBusinessRules d).errors.isEmpty := rfl

theorem server_db_isValid_def (env : ServerValidation.DBEnv) (d : OrderData) :
    (ServerValidation.validateDatabaseConstraints env d).isValid =
      (ServerValidation.validateDatabaseConstraints env d).errors.isEmpty := rfl

theorem server_biz_isValid_def (d : OrderData) :
    (ServerValidation.validateBusinessRules d).isValid =
      (ServerValidation.validateBusinessRules d).errors.isEmpty := rfl

/-- The client validator flags an empty cart. -/
theorem client_empty_cart_mem (d : OrderData) (h : d.cartItems = []) :
    mkErr "cartItems" "Cart cannot be empty" "EMPTY_CART" ∈
      (ClientValidation.validateBusinessRules d).errors := by
  simp [ClientValidation.validateBusinessRules, h]

/-- The server constraint validator flags an empty cart. -/
theorem server_empty_cart_mem (env : ServerValidation.DBEnv) (d : OrderData)
    (h : d.cartItems = []) :
    mkErr "cartItems" "Order must contain at least one item" "EMPTY_CART" ∈
      (ServerValidation.validateDatabaseConstraints env d).errors := by
  simp [ServerValidation.validateDatabaseConstraints, ServerValidation.cartSection, h]

/-! ## C1 -/

/-- C1: for every order draft whose `cartItems` list is empty, both the
client-side `validateBusinessRules` and the server-side
`validateDatabaseConstraints` return a result containing a cart-empty
error on field `cartItems` (code `EMPTY_CART`) and `isValid = false`. -/
theorem validators_flag_empty_cart (env : ServerValidation.DBEnv) (d : OrderData)
    (h : d.cartItems = []) :
    (∃ e ∈ (ClientValidation.validateBusinessRules d).errors,
      e.field = "cartItems" ∧ e.code = "EMPTY_CART") ∧
    (ClientValidation.validateBusinessRules d).isValid = false ∧
    (∃ e ∈ (ServerValidation.validateDatabaseConstraints env d).errors,
      e.field = "cartItems" ∧ e.code = "EMPTY_CART") ∧
    (ServerValidation.validateDatabaseConstraints env d).isValid = false := by
  have hc := client_empty_cart_mem d h
  have hs := server_empty_cart_mem env d h
  refine ⟨⟨_, hc, rfl, rfl⟩, ?_, ⟨_, hs, rfl, rfl⟩, ?_⟩
  · rw [client_isValid_def, isEmpty_false_of_mem hc]
  · rw [server_db_isValid_def, isEmpty_false_of_mem hs]

def c1Env : ServerValidation.DBEnv :=
  { product := fun _ => none, authUser := none,
    addressOwned := fun _ _ => false, discountRpc := fun _ _ _ => none }

def c1Draft : OrderData := .auth
  { userId := "user-1", addressId := "addr-1", cartItems := [],
    deliveryMethod := "standard", deliveryFee := 0, subtotal := 0,
    discountCode := none, discountAmount := none, total := 0 }

/-- Witness for C1 at a concrete empty-cart draft. -/
theorem validators_flag_empty_cart_witness :
    (∃ e ∈ (ClientValidation.validateBusinessRules c1Draft).errors,
      e.field = "cartItems" ∧ e.code = "EMPTY_CART") ∧
    (ClientValidation.validateBusinessRules c1Draft).isValid = false ∧
    (∃ e ∈ (ServerValidation.validateDatabaseConstraints c1Env c1Draft).errors,
      e.field = "cartItems" ∧ e.code = "EMPTY_CART") ∧
    (ServerValidation.validateDatabaseConstraints c1Env c1Draft).isValid = false :=
  validators_flag_empty_cart c1Env c1Draft rfl

/-! ## C2 -/

/-- Any error whose code sits in the critical tier forces severity
`critical`. -/
theorem determineSeverity_of_critical {errs : List OrderValidationError}
    (h : ∃ e ∈ errs, e.code ∈ AuditLogger.criticalCodes) :
    AuditLogger.determineSeverity errs = .critical := by
  obtain ⟨e, he, hc⟩ := h
  unfold AuditLogger.determineSeverity
  rw [if_pos]
  rw [List.any_eq_true]
  exact ⟨e, he, by simpa using hc⟩

/-- C2: `determineSeverity` matches error codes against the three fixed
tiers, checked critical first, then high, then medium, with exactly the
listed codes in each tier and `low` as the default; in particular a
list containing both a critical-tier and a high-tier code classifies as
`critical`. -/
theorem determineSeverity_tiers :
    AuditLogger.criticalCodes =
      ["PRODUCT_NOT_FOUND", "CALCULATION_MISMATCH", "CART_EMPTY", "INVALID_USER_ID"] ∧
    AuditLogger.highCodes =
      ["PRODUCT_OUT_OF_STOCK", "INVALID_DISCOUNT_CODE", "DISCOUNT_USAGE_EXCEEDED",
       "MAXIMUM_ORDER_EXCEEDED"] ∧
    AuditLogger.mediumCodes =
      ["PRODUCT_PRICE_CHANGED", "DISCOUNT_EXPIRED", "MINIMUM_ORDER_NOT_MET",
       "INVALID_QUANTITY"] ∧
    (∀ errs : List OrderValidationError,
      AuditLogger.determineSeverity errs =
        if errs.any fun e => AuditLogger.criticalCodes.contains e.code then .critical
        else if errs.any fun e => AuditLogger.highCodes.contains e.code then .high
        else if errs.any fun e => AuditLogger.mediumCodes.contains e.code then .medium
        else .low) ∧
    (∀ errs : List OrderValidationError,
      (∃ e ∈ errs, e.code ∈ AuditLogger.criticalCodes) →
      (∃ e ∈ errs, e.code ∈ AuditLogger.highCodes) →
      AuditLogger.determineSeverity errs = .critical) :=
  ⟨rfl, rfl, rfl, fun _ => rfl, fun _ h1 _ => determineSeverity_of_critical h1⟩

/-- Witness for C2: a list holding a critical-tier code (`CART_EMPTY`)
and a high-tier code (`MAXIMUM_ORDER_EXCEEDED`) classifies as
critical. -/
theorem determineSeverity_tiers_witness :
    AuditLogger.determineSeverity
      [mkErr "cartItems" "m" "CART_EMPTY", mkErr "total" "m" "MAXIMUM_ORDER_EXCEEDED"] =
      AuditLogger.AuditSeverity.critical :=
  determineSeverity_tiers.2.2.2.2 _
    ⟨mkErr "cartItems" "m" "CART_EMPTY", by simp, by simp [AuditLogger.criticalCodes, mkErr]⟩
    ⟨mkErr "total" "m" "MAXIMUM_ORDER_EXCEEDED", by simp, by simp [AuditLogger.highCodes, mkErr]⟩

/-! ## C3 -/

def c3Env : ServerValidation.DBEnv :=
  { product := fun _ => none, authUser := none,
    addressOwned := fun _ _ => false, discountRpc := fun _ _ _ => none }

def c3Draft : OrderData := .auth
  { userId := "user-1", addressId := "addr-1",
    cartItems := [{ product_id := "p1", quantity := 1, price := 100 }],
    deliveryMethod := "standard", deliveryFee := 0, subtotal := 100,
    discountCode := none, discountAmount := none, total := 15099 }

/-- C3 counterexample: at a concrete draft with total 15,099 the
composite validator is indeed invalid, but no produced error carries the
code `MAXIMUM_ORDER_EXCEEDED` claimed by the specification (the source
emits `EXCESSIVE_ORDER_VALUE` instead, and `MAXIMUM_ORDER_EXCEEDED`
exists only in the audit logger's severity tiers). -/
theorem maximum_order_code_counterexample :
    c3Draft.total = 15099 ∧
    (ServerValidation.validateOrder c3Env c3Draft).isValid = false ∧
    ¬ ∃ e ∈ (ServerValidation.validateOrder c3Env c3Draft).errors,
        e.code = "MAXIMUM_ORDER_EXCEEDED" := by
  refine ⟨rfl, ?_, ?_⟩ <;>
  · simp only [ServerValidation.validateOrder, ServerValidation.validateDatabaseConstraints,
      ServerValidation.validateBusinessRules, ServerValidation.cartSection,
      ServerValidation.cartLoop, ServerValidation.itemChecks,
      ServerValidation.quantityCapChecks, ServerValidation.discountChecks,
      ServerValidation.moneyChecks, ServerValidation.authConstraintChecks,
      ServerValidation.validDeliveryMethods, ServerValidation.totalCalculationError,
      c3Draft, c3Env, OrderData.cartItems, OrderData.total, OrderData.subtotal,
      OrderData.deliveryFee, OrderData.deliveryMethod, OrderData.discountCode,
      OrderData.discountAmount, OrderData.userIdOpt, mkErr, mkWarn, jsAbs]
    norm_num
    try decide

/-- The `EXCESSIVE_ORDER_VALUE` record lands in the server business-rule
errors for any draft whose total exceeds 10,000. -/
theorem excessive_order_value_mem (d : OrderData) (h : (10000 : ℚ) < d.total) :
    mkErr "total" "Order total exceeds maximum allowed amount of R10000"
        "EXCESSIVE_ORDER_VALUE" ∈
      (ServerValidation.validateBusinessRules d).errors := by
  simp only [ServerValidation.validateBusinessRules]
  rw [if_pos h]
  exact List.mem_append_left _ (List.mem_singleton.mpr rfl)

/-- C3 (amended): for every draft with total 15,099 (exceeding the
10,000 maximum), the composite `validateOrder` is invalid and contains
an error with code `EXCESSIVE_ORDER_VALUE`. -/
theorem validateOrder_excessive_order_value (env : ServerValidation.DBEnv)
    (d : OrderData) (h : d.total = 15099) :
    (ServerValidation.validateOrder env d).isValid = false ∧
    ∃ e ∈ (ServerValidation.validateOrder env d).errors,
      e.code = "EXCESSIVE_ORDER_VALUE" ∧ e.severity = ErrSeverity.error := by
  have hlt : (10000 : ℚ) < d.total := by rw [h]; norm_num
  have hmem := excessive_order_value_mem d hlt
  have hbiz : (ServerValidation.validateBusinessRules d).isValid = false := by
    rw [server_biz_isValid_def, isEmpty_false_of_mem hmem]
  constructor
  · show Bool.and (ServerValidation.validateDatabaseConstraints env d).isValid
      (ServerValidation.validateBusinessRules d).isValid = false
    rw [hbiz, Bool.and_false]
  · exact ⟨_, List.mem_append_right _ hmem, rfl, rfl⟩

def c3wEnv : ServerValidation.DBEnv :=
  { product := fun _ => none, authUser := none,
    addressOwned := fun _ _ => false, discountRpc := fun _ _ _ => none }

def c3wDraft : OrderData := .auth
  { userId := "user-2", addressId := "addr-2",
    cartItems := [{ product_id := "p2", quantity := 2, price := 50 }],
    deliveryMethod := "express", deliveryFee := 99, subtotal := 15000,
    discountCode := none, discountAmount := none, total := 15099 }

/-- Witness for the amended C3 at a concrete draft. -/
theorem validateOrder_excessive_order_value_witness :
    (ServerValidation.validateOrder c3wEnv c3wDraft).isValid = false ∧
    ∃ e ∈ (ServerValidation.validateOrder c3wEnv c3wDraft).errors,
      e.code = "EXCESSIVE_ORDER_VALUE" ∧ e.severity = ErrSeverity.error :=
  validateOrder_excessive_order_value c3wEnv c3wDraft rfl

/-! ## C4 -/

/-- Membership in the trailing money checks lifts to membership in the
full server constraint-validation error list. -/
theorem dbc_mem_of_mem_money {env : ServerValidation.DBEnv} {d : OrderData}
    {e : OrderValidationError} (hm : e ∈ ServerValidation.moneyChecks d) :
    e ∈ (ServerValidation.validateDatabaseConstraints env d).errors := by
  simp only [ServerValidation.validateDatabaseConstraints]
  exact List.mem_append_right _ hm

/-- C4: whenever the received total differs from
`subtotal + deliveryFee - discountAmount` (0 when absent) by more than
0.01, `validateDatabaseConstraints` reports a `TOTAL_CALCULATION_ERROR`
whose message surfaces both the expected and the received total, and
the result is invalid. -/
theorem dbc_total_mismatch (env : ServerValidation.DBEnv) (d : OrderData)
    (h : 1 / 100 < |d.total - (d.subtotal + d.deliveryFee - d.discountAmount.getD 0)|) :
    (∃ e ∈ (ServerValidation.validateDatabaseConstraints env d).errors,
      e.code = "TOTAL_CALCULATION_ERROR" ∧
      e.message = "Order total calculation error. Expected: R" ++
        toFixed2 (d.subtotal + d.deliveryFee - d.discountAmount.getD 0) ++
        ", Received: R" ++ toFixed2 d.total) ∧
    (ServerValidation.validateDatabaseConstraints env d).isValid = false := by
  rw [← jsAbs_eq_abs] at h
  have hm : ServerValidation.totalCalculationError
      (d.subtotal + d.deliveryFee - d.discountAmount.getD 0) d.total ∈
      ServerValidation.moneyChecks d := by
    simp only [ServerValidation.moneyChecks]
    refine List.mem_append_right _ ?_
    rw [if_pos h]
    exact List.mem_singleton.mpr rfl
  have hmem := @dbc_mem_of_mem_money env d _ hm
  refine ⟨⟨_, hmem, rfl, rfl⟩, ?_⟩
  rw [server_db_isValid_def, isEmpty_false_of_mem hmem]

def c4Env : ServerValidation.DBEnv :=
  { product := fun _ => none, authUser := none,
    addressOwned := fun _ _ => false, discountRpc := fun _ _ _ => none }

def c4Draft : OrderData := .auth
  { userId := "user-4", addressId := "addr-4",
    cartItems := [{ product_id := "p4", quantity := 1, price := 100 }],
    deliveryMethod := "standard", deliveryFee := 0, subtotal := 100,
    discountCode := none, discountAmount := none, total := 200 }

/-- Witness for C4: total 200 against expected 100. -/
theorem dbc_total_mismatch_witness :
    (∃ e ∈ (ServerValidation.validateDatabaseConstraints c4Env c4Draft).errors,
      e.code = "TOTAL_CALCULATION_ERROR" ∧
      e.message = "Order total calculation error. Expected: R" ++
        toFixed2 (c4Draft.subtotal + c4Draft.deliveryFee - c4Draft.discountAmount.getD 0) ++
        ", Received: R" ++ toFixed2 c4Draft.total) ∧
    (ServerValidation.validateDatabaseConstraints c4Env c4Draft).isValid = false :=
  dbc_total_mismatch c4Env c4Draft (by
    show (1 : ℚ) / 100 < |(200 : ℚ) - ((100 : ℚ) + 0 - (Option.getD none 0))|
    norm_num)

/-! ## C5 -/

/-- C5: the composite `validateOrder` is valid exactly when both the
database-constraint result and the business-rule result are valid, and
its error and warning lists are the concatenations of the constituent
lists, preserving multiplicity (duplicates from overlapping checks are
not deduplicated). -/
theorem validateOrder_merges_results (env : ServerValidation.DBEnv) (d : OrderData) :
    ((ServerValidation.validateOrder env d).isValid = true ↔
      ((ServerValidation.validateDatabaseConstraints env d).isValid = true ∧
       (ServerValidation.validateBusinessRules d).isValid = true)) ∧
    ((ServerValidation.validateOrder env d).errors =
      (ServerValidation.validateDatabaseConstraints env d).errors ++
        (ServerValidation.validateBusinessRules d).errors) ∧
    ((ServerValidation.validateOrder env d).warnings =
      (ServerValidation.validateDatabaseConstraints env d).warnings ++
        (ServerValidation.validateBusinessRules d).warnings) ∧
    (∀ e : OrderValidationError,
      (ServerValidation.validateOrder env d).errors.count e =
        (ServerValidation.validateDatabaseConstraints env d).errors.count e +
          (ServerValidation.validateBusinessRules d).errors.count e) ∧
    (∀ e : OrderValidationError,
      (ServerValidation.validateOrder env d).warnings.count e =
        (ServerValidation.validateDatabaseConstraints env d).warnings.count e +
          (ServerValidation.validateBusinessRules d).warnings.count e) := by
  refine ⟨?_, rfl, rfl, ?_, ?_⟩
  · show Bool.and (ServerValidation.validateDatabaseConstraints env d).isValid
      (ServerValidation.validateBusinessRules d).isValid = true ↔ _
    rw [Bool.and_eq_true]
  · intro e
    exact List.count_append e _ _
  · intro e
    exact List.count_append e _ _

/-! ## C6 -/

/-- C6 (code bug): `maskPhone` on the five-character phone `"01234"`
computes `'*'.repeat(5 - 6)`, i.e. a repeat count of `-1`, and throws a
RangeError instead of returning a masked string, although phones of
length 6 and above are masked as first three + asterisks + last three
and phones of length at most 4 are returned unchanged. -/
theorem maskPhone_length_five_throws :
    AuditLogger.maskPhone "01234" = Except.error "RangeError: Invalid count value" ∧
    AuditLogger.maskPhone "0123456789" = Except.ok "012****789" ∧
    AuditLogger.maskPhone "0123" = Except.ok "0123" :=
  ⟨rfl, rfl, rfl⟩

/-! ## C7 -/

/-- A cart item with quantity above 10 makes the client item loop emit a
`LARGE_QUANTITY` warning. -/
theorem client_large_quantity_mem (i : Nat) (items : List CartItem)
    (it : CartItem) (hm : it ∈ items) (hq : 10 < it.quantity) :
    ∃ e ∈ (ClientValidation.itemQuantityChecks i items).2,
      e.code = "LARGE_QUANTITY" ∧ e.severity = ErrSeverity.warning := by
  induction items generalizing i with
  | nil => cases hm
  | cons x xs ih =>
    rcases List.mem_cons.mp hm with hx | hxs
    · subst hx
      refine ⟨mkWarn ("cartItems[" ++ toString i ++ "].quantity")
        "Large quantity order - please verify" "LARGE_QUANTITY", ?_, rfl, rfl⟩
      simp only [ClientValidation.itemQuantityChecks]
      refine List.mem_append_left _ ?_
      rw [if_pos hq]
      exact List.mem_singleton.mpr rfl
    · obtain ⟨e, he, hp⟩ := ih (i + 1) hxs
      refine ⟨e, ?_, hp⟩
      simp only [ClientValidation.itemQuantityChecks]
      exact List.mem_append_right _ he

/-- A cart item with quantity above 10 makes the server quantity-cap
loop emit an `EXCESSIVE_QUANTITY` error. -/
theorem server_excessive_quantity_mem (items : List CartItem) (it : CartItem)
    (hm : it ∈ items) (hq : 10 < it.quantity) :
    mkErr "cartItems" "Maximum quantity per item is 10" "EXCESSIVE_QUANTITY" ∈
      ServerValidation.quantityCapChecks items := by
  induction items with
  | nil => cases hm
  | cons x xs ih =>
    rcases List.mem_cons.mp hm with hx | hxs
    · subst hx
      simp only [ServerValidation.quantityCapChecks]
      refine List.mem_append_left _ ?_
      rw [if_pos hq]
      exact List.mem_singleton.mpr rfl
    · simp only [ServerValidation.quantityCapChecks]
      exact List.mem_append_right _ (ih hxs)

def c7Draft : OrderData := .auth
  { userId := "user-7", addressId := "addr-7",
    cartItems := [{ product_id := "p7", quantity := 15, price := 10 }],
    deliveryMethod := "standard", deliveryFee := 0, subtotal := 150,
    discountCode := none, discountAmount := none, total := 150 }

/-- C7 counterexample: at a concrete draft with an item of quantity 15,
the server-module business-rule validator (one of the two validators
the claim describes) emits an error-severity `EXCESSIVE_QUANTITY`
record and no `LARGE_QUANTITY` warning, and its `isValid` is false —
contradicting "emits a warning (code LARGE_QUANTITY), not an error, and
`isValid` unaffected". -/
theorem quantity_fifteen_counterexample :
    (∃ it ∈ c7Draft.cartItems, it.quantity = 15) ∧
    (ServerValidation.validateBusinessRules c7Draft).warnings = [] ∧
    (∃ e ∈ (ServerValidation.validateBusinessRules c7Draft).errors,
      e.code = "EXCESSIVE_QUANTITY" ∧ e.severity = ErrSeverity.error) ∧
    (ServerValidation.validateBusinessRules c7Draft).isValid = false := by
  refine ⟨⟨{ product_id := "p7", quantity := 15, price := 10 }, ?_, rfl⟩, ?_⟩
  · simp [c7Draft, OrderData.cartItems]
  · simp only [ServerValidation.validateBusinessRules,
      ServerValidation.quantityCapChecks, c7Draft, OrderData.cartItems,
      OrderData.total, OrderData.subtotal, mkErr, mkWarn]
    norm_num

/-- C7 (amended): for every draft holding an item of quantity 15, the
client-side business-rule validator emits a `LARGE_QUANTITY` warning of
severity `warning` for it (its `isValid` being exactly
`errors.isEmpty`, so warnings alone never invalidate), while the
server-module business-rule validator instead emits an error-severity
`EXCESSIVE_QUANTITY` record that makes its result invalid. -/
theorem quantity_fifteen_client_warns_server_errors (d : OrderData)
    (it : CartItem) (hm : it ∈ d.cartItems) (hq : it.quantity = 15) :
    (∃ e ∈ (ClientValidation.validateBusinessRules d).warnings,
      e.code = "LARGE_QUANTITY" ∧ e.severity = ErrSeverity.warning) ∧
    ((ClientValidation.validateBusinessRules d).isValid =
      (ClientValidation.validateBusinessRules d).errors.isEmpty) ∧
    (∃ e ∈ (ServerValidation.validateBusinessRules d).errors,
      e.code = "EXCESSIVE_QUANTITY" ∧ e.severity = ErrSeverity.error) ∧
    (ServerValidation.validateBusinessRules d).isValid = false := by
  have hq10 : (10 : ℚ) < it.quantity := by rw [hq]; norm_num
  have hcw := client_large_quantity_mem 0 d.cartItems it hm hq10
  have hse := server_excessive_quantity_mem d.cartItems it hm hq10
  have hsmem : mkErr "cartItems" "Maximum quantity per item is 10" "EXCESSIVE_QUANTITY" ∈
      (ServerValidation.validateBusinessRules d).errors := by
    simp only [ServerValidation.validateBusinessRules]
    exact List.mem_append_right _ hse
  refine ⟨hcw, rfl, ⟨_, hsmem, rfl, rfl⟩, ?_⟩
  rw [server_biz_isValid_def, isEmpty_false_of_mem hsmem]

def c7wCustomer : GuestCustomerInfo :=
  { full_name := "Jane Doe", email := "jane@example.com", phone := "0123456789" }

def c7wAddress : GuestAddressInfo :=
  { street_address := "1 Main Rd", city := "Joburg", province := "GP",
    postal_code := "2000", phone := "0987654321" }

def c7wDraft : OrderData := .guest
  { customerInfo := c7wCustomer, address := c7wAddress,
    cartItems := [{ product_id := "p7", quantity := 15, price := 10 }],
    deliveryMethod := "standard", deliveryFee := 0, subtotal := 150,
    discountCode := none, discountAmount := none, total := 150 }

/-- Witness for the amended C7 at a concrete guest draft. -/
theorem quantity_fifteen_client_warns_server_errors_witness :
    (∃ e ∈ (ClientValidation.validateBusinessRules c7wDraft).warnings,
      e.code = "LARGE_QUANTITY" ∧ e.severity = ErrSeverity.warning) ∧
    ((ClientValidation.validateBusinessRules c7wDraft).isValid =
      (ClientValidation.validateBusinessRules c7wDraft).errors.isEmpty) ∧
    (∃ e ∈ (ServerValidation.validateBusinessRules c7wDraft).errors,
      e.code = "EXCESSIVE_QUANTITY" ∧ e.severity = ErrSeverity.error) ∧
    (ServerValidation.validateBusinessRules c7wDraft).isValid = false :=
  quantity_fifteen_client_warns_server_errors c7wDraft
    { product_id := "p7", quantity := 15, price := 10 }
    (by simp [c7wDraft, OrderData.cartItems]) rfl

/-! ## C8 -/

/-- C8: the audit-logging operations always return normally — for every
environment, including ones whose persistence step or critical-alert
notification fails, `logValidationViolation`, `logValidationSuccess`
and `logSuspiciousActivity` evaluate to `Except.ok ()`; no failure
(store, alert, or the sanitization throw) escapes to the caller. -/
theorem audit_logging_never_propagates (env : AuditLogger.AuditEnv)
    (d : OrderData) (errs warns : List OrderValidationError)
    (desc : String) (ctx : Option String) :
    AuditLogger.logValidationViolation env d errs ctx = Except.ok () ∧
    AuditLogger.logValidationSuccess env d warns = Except.ok () ∧
    AuditLogger.logSuspiciousActivity env desc d ctx = Except.ok () :=
  ⟨tryCatchUnit_ok _, tryCatchUnit_ok _, tryCatchUnit_ok _⟩

/-! ## C9 -/

/-- Error lists whose codes all equal `EMPTY_CART` match none of the
three severity tiers. -/
theorem determineSeverity_empty_cart_low (errs : List OrderValidationError)
    (h : ∀ e ∈ errs, e.code = "EMPTY_CART") :
    AuditLogger.determineSeverity errs = .low := by
  have h1 : (errs.any fun e => AuditLogger.criticalCodes.contains e.code) = false := by
    rw [List.any_eq_false]
    intro e he
    rw [h e he]
    decide
  have h2 : (errs.any fun e => AuditLogger.highCodes.contains e.code) = false := by
    rw [List.any_eq_false]
    intro e he
    rw [h e he]
    decide
  have h3 : (errs.any fun e => AuditLogger.mediumCodes.contains e.code) = false := by
    rw [List.any_eq_false]
    intro e he
    rw [h e he]
    decide
  unfold AuditLogger.determineSeverity
  rw [h1, h2, h3]
  simp

/-- C9 (implicit): the cart-empty error both validators actually emit
carries code `EMPTY_CART`, which sits in none of the severity tiers of
`determineSeverity` (the critical tier lists `CART_EMPTY` instead), so
an error list made up of such cart-empty errors is classified `low`,
and the entry `logValidationViolation` builds for it carries severity
`low` rather than `critical`. -/
theorem empty_cart_classified_low :
    ("EMPTY_CART" ∉ AuditLogger.criticalCodes ∧
     "EMPTY_CART" ∉ AuditLogger.highCodes ∧
     "EMPTY_CART" ∉ AuditLogger.mediumCodes) ∧
    (∀ d : OrderData, d.cartItems = [] →
      ∃ e ∈ (ClientValidation.validateBusinessRules d).errors, e.code = "EMPTY_CART") ∧
    (∀ (env : ServerValidation.DBEnv) (d : OrderData), d.cartItems = [] →
      ∃ e ∈ (ServerValidation.validateDatabaseConstraints env d).errors,
        e.code = "EMPTY_CART") ∧
    (∀ errs : List OrderValidationError, (∀ e ∈ errs, e.code = "EMPTY_CART") →
      AuditLogger.determineSeverity errs = .low) ∧
    (∀ (env : AuditLogger.AuditEnv) (d : OrderData)
       (errs : List OrderValidationError) (ctx : Option String)
       (entry : AuditLogger.AuditLogEntry),
      (∀ e ∈ errs, e.code = "EMPTY_CART") →
      AuditLogger.mkViolationEntry env d errs ctx = Except.ok entry →
      entry.severity = .low) := by
  refine ⟨⟨by decide, by decide, by decide⟩, ?_, ?_, determineSeverity_empty_cart_low, ?_⟩
  · intro d h
    exact ⟨_, client_empty_cart_mem d h, rfl⟩
  · intro env d h
    exact ⟨_, server_empty_cart_mem env d h, rfl⟩
  · intro env d errs ctx entry hcodes hmk
    cases hs : AuditLogger.sanitizeOrderData d with
    | error s =>
      rw [AuditLogger.mkViolationEntry, hs] at hmk
      cases hmk
    | ok sd =>
      rw [AuditLogger.mkViolationEntry, hs] at hmk
      cases hmk
      exact determineSeverity_empty_cart_low errs hcodes

def c9Env : AuditLogger.AuditEnv :=
  { timestamp := "2026-01-01T00:00:00.000Z", sessionId := "session_demo",
    userAgent := "agent", store := fun _ => Except.error "insert failed",
    alert := fun _ => Except.error "alert failed" }

def c9Errs : List OrderValidationError :=
  [mkErr "cartItems" "Cart cannot be empty" "EMPTY_CART"]

def c9Draft : OrderData := .auth
  { userId := "user-9", addressId := "addr-9", cartItems := [],
    deliveryMethod := "standard", deliveryFee := 0, subtotal := 0,
    discountCode := none, discountAmount := none, total := 0 }

def c9Entry : AuditLogger.AuditLogEntry :=
  { timestamp := "2026-01-01T00:00:00.000Z"
    event_type := .validation_failure
    user_id := some "user-9"
    session_id := "session_demo"
    order_data := c9Draft
    validation_errors := c9Errs
    severity := .low
    ip_address := "client_ip_masked"
    user_agent := "agent"
    additional_context := none }

/-- Witness for C9 at a concrete cart-empty error list, draft and
environment. -/
theorem empty_cart_classified_low_witness :
    AuditLogger.determineSeverity c9Errs = .low ∧
    (∃ e ∈ (ClientValidation.validateBusinessRules c9Draft).errors,
      e.code = "EMPTY_CART") ∧
    c9Entry.severity = AuditLogger.AuditSeverity.low :=
  ⟨empty_cart_classified_low.2.2.2.1 c9Errs (by
      intro e he
      simp only [c9Errs, List.mem_singleton] at he
      rw [he]
      rfl),
   empty_cart_classified_low.2.1 c9Draft rfl,
   empty_cart_classified_low.2.2.2.2 c9Env c9Draft c9Errs none c9Entry (by
      intro e he
      simp only [c9Errs, List.mem_singleton] at he
      rw [he]
      rfl) rfl⟩

/-! ## C10 -/

/-- C10 (frame): `sanitizeOrderData` touches only `customerInfo.email`,
`customerInfo.phone` and `address.phone`.  For a guest draft every
other field — full name, street address, city, province, postal code,
cart items, delivery method and fee, subtotal, discount code and
amount, and total — appears unchanged in the sanitized snapshot, and an
authenticated draft (only `userId`/`addressId` besides the shared
fields) is returned entirely unchanged. -/
theorem sanitizeOrderData_frame :
    (∀ (g : GuestOrderData) (d : OrderData),
      AuditLogger.sanitizeOrderData (.guest g) = Except.ok d →
      ∃ g2, d = OrderData.guest g2 ∧
        g2.customerInfo.full_name = g.customerInfo.full_name ∧
        g2.address.street_address = g.address.street_address ∧
        g2.address.city = g.address.city ∧
        g2.address.province = g.address.province ∧
        g2.address.postal_code = g.address.postal_code ∧
        g2.cartItems = g.cartItems ∧
        g2.deliveryMethod = g.deliveryMethod ∧
        g2.deliveryFee = g.deliveryFee ∧
        g2.subtotal = g.subtotal ∧
        g2.discountCode = g.discountCode ∧
        g2.discountAmount = g.discountAmount ∧
        g2.total = g.total) ∧
    (∀ a : AuthenticatedOrderData,
      AuditLogger.sanitizeOrderData (.auth a) = Except.ok (.auth a)) := by
  constructor
  · intro g d hok
    cases hp1 : AuditLogger.maskPhone g.customerInfo.phone with
    | error s =>
      rw [AuditLogger.sanitizeOrderData, hp1] at hok
      cases hok
    | ok mp1 =>
      cases hp2 : AuditLogger.maskPhone g.address.phone with
      | error s =>
        rw [AuditLogger.sanitizeOrderData, hp1, hp2] at hok
        cases hok
      | ok mp2 =>
        rw [AuditLogger.sanitizeOrderData, hp1, hp2] at hok
        cases hok
        exact ⟨_, rfl, rfl, rfl, rfl, rfl, rfl, rfl, rfl, rfl, rfl, rfl, rfl, rfl⟩
  · intro a
    rfl

def c10Guest : GuestOrderData :=
  { customerInfo := { full_name := "Thandi M", email := "thandi@example.com",
                      phone := "0111222333" },
    address := { street_address := "7 Long St", city := "Cape Town",
                 province := "WC", postal_code := "8001", phone := "0214445556" },
    cartItems := [{ product_id := "p10", quantity := 2, price := 250 }],
    deliveryMethod := "collection", deliveryFee := 0, subtotal := 500,
    discountCode := some "SAVE10", discountAmount := some 50, total := 450 }

def c10Masked : GuestOrderData :=
  { c10Guest with
    customerInfo := { c10Guest.customerInfo with
      email := "th****@example.com", phone := "011****333" },
    address := { c10Guest.address with phone := "021****556" } }

/-- Witness for C10 at a concrete guest draft whose sanitization
succeeds. -/
theorem sanitizeOrderData_frame_witness :
    ∃ g2, OrderData.guest c10Masked = OrderData.guest g2 ∧
      g2.customerInfo.full_name = c10Guest.customerInfo.full_name ∧
      g2.address.street_address = c10Guest.address.street_address ∧
      g2.address.city = c10Guest.address.city ∧
      g2.address.province = c10Guest.address.province ∧
      g2.address.postal_code = c10Guest.address.postal_code ∧
      g2.cartItems = c10Guest.cartItems ∧
      g2.deliveryMethod = c10Guest.deliveryMethod ∧
      g2.deliveryFee = c10Guest.deliveryFee ∧
      g2.subtotal = c10Guest.subtotal ∧
      g2.discountCode = c10Guest.discountCode ∧
      g2.discountAmount = c10Guest.discountAmount ∧
      g2.total = c10Guest.total :=
  sanitizeOrderData_frame.1 c10Guest (.guest c10Masked) rfl
